import Mathlib

/-!
Shallow embedding of the jetstream-pytorch repository
(`jetstream_pt/fetch_models.py` and
`jetstream_pt/third_party/gemma/model.py`), together with theorems
checking the natural-language specification against the code.

Conventions:
* Python ints indexing tensors of positions are modelled as `Nat`
  (all positions handled here are nonnegative); the flag
  `override_max_cache_length`, whose default is `-1`, is an `Int`.
* Python floats are modelled as real numbers, complex tensors as `ℂ`.
* A Python function that can raise is modelled as `Option`/`Except`:
  `none`/`.error` is the raising run.
* Tensors are modelled as lists (per-axis nesting) or as functions
  out of `Fin n`, whichever the statement needs.
-/

namespace JetstreamPt

/-! ## fetch_models.py : model table -/

/-- Tag standing for the `model_class` field of `ModelInfo`
(`llama_model.Transformer`, `mixtral_model.Transformer`,
`gemma_model.GemmaModel`). -/
inductive ModelClass
  | llamaTransformer
  | mixtralTransformer
  | gemmaModel
  deriving DecidableEq, Repr

/-- `ModelInfo` dataclass of fetch_models.py. -/
structure ModelInfo where
  model_class : ModelClass
  num_layers : Nat
  num_kv_heads : Nat
  head_dim : Nat
  n_reps : Nat
  deriving DecidableEq, Repr

def _llama2_7 : ModelInfo := ⟨.llamaTransformer, 32, 32, 128, 1⟩
def _llama2_13 : ModelInfo := ⟨.llamaTransformer, 40, 40, 128, 1⟩
def _llama2_70 : ModelInfo := ⟨.llamaTransformer, 80, 8, 128, 8⟩
def _llama3_8 : ModelInfo := ⟨.llamaTransformer, 32, 8, 128, 4⟩
def _llama3_70 : ModelInfo := _llama2_70
def _llama3_1_8b : ModelInfo := _llama3_8
def _llama3_2_1b : ModelInfo := ⟨.llamaTransformer, 16, 8, 64, 4⟩
def _llama3_3_70b : ModelInfo := _llama2_70
def _mixtral_87 : ModelInfo := ⟨.mixtralTransformer, 32, 8, 128, 4⟩
def _gemma_2b : ModelInfo := ⟨.gemmaModel, 18, 1, 256, 8⟩
def _gemma_7b : ModelInfo := ⟨.gemmaModel, 28, 16, 256, 1⟩

/-- The `model_id_to_class` dict, as a lookup function
(`model_id_to_class.get repo_id` in the Python code). -/
def model_id_to_class : String → Option ModelInfo
  | "meta-llama/Llama-2-7b-chat-hf" => some _llama2_7
  | "meta-llama/Llama-2-7b-hf" => some _llama2_7
  | "meta-llama/Llama-2-13b-chat-hf" => some _llama2_13
  | "meta-llama/Llama-2-13b-hf" => some _llama2_13
  | "meta-llama/Llama-2-70b-hf" => some _llama2_70
  | "meta-llama/Llama-2-70b-chat-hf" => some _llama2_70
  | "meta-llama/Meta-Llama-3-8B" => some _llama3_8
  | "meta-llama/Meta-Llama-3-8B-Instruct" => some _llama3_8
  | "meta-llama/Meta-Llama-3-70B" => some _llama3_70
  | "meta-llama/Meta-Llama-3-70B-Instruct" => some _llama3_70
  | "meta-llama/Llama-3.1-8B" => some _llama3_1_8b
  | "meta-llama/Llama-3.1-8B-Instruct" => some _llama3_1_8b
  | "meta-llama/Llama-3.2-1B" => some _llama3_2_1b
  | "meta-llama/Llama-3.2-1B-Instruct" => some _llama3_2_1b
  | "meta-llama/Llama-3.3-70B" => some _llama3_3_70b
  | "meta-llama/Llama-3.3-70B-Instruct" => some _llama3_3_70b
  | "google/gemma-2b" => some _gemma_2b
  | "google/gemma-2b-it" => some _gemma_2b
  | "google/gemma-7b" => some _gemma_7b
  | "google/gemma-7b-it" => some _gemma_7b
  | "mistralai/Mixtral-8x7B-v0.1" => some _mixtral_87
  | "mistralai/Mixtral-8x7B-Instruct-v0.1" => some _mixtral_87
  | "deepseek-ai/DeepSeek-R1-Distill-Llama-8B" => some _llama3_1_8b
  | "deepseek-ai/DeepSeek-R1-Distill-Llama-70B" => some _llama3_3_70b
  | _ => none

/-! ## fetch_models.py : construct_env_data_from_model_id -/

/-- `_model_dir`: `os.path.join(FLAGS.working_dir, repo_id)`.
`working_dir` is the `FLAGS.working_dir` flag value, passed explicitly. -/
def _model_dir (working_dir repo_id : String) : String :=
  working_dir ++ "/" ++ repo_id

/-- `_hf_dir`: `os.path.join(_model_dir(repo_id), "hf_original")`. -/
def _hf_dir (working_dir repo_id : String) : String :=
  _model_dir working_dir repo_id ++ "/" ++ "hf_original"

/-- The fields of `JetEngineEnvironmentData` set by
`construct_env_data_from_model_id` (including the two fields assigned
after construction, `cache_shape` and `num_layers`). -/
structure JetEngineEnvironmentData where
  tokenizer_path : String
  checkpoint_path : String
  checkpoint_format : String
  batch_size : Nat
  max_decode_length : Nat
  max_input_sequence_length : Nat
  cache_sequence_length : Nat
  bf16_enable : Bool
  sharding_config_path : String
  shard_on_batch : Bool
  n_reps : Nat
  cache_shape : Nat × Nat × Nat × Nat
  num_layers : Nat
  deriving DecidableEq, Repr

/-- `construct_env_data_from_model_id`.  `override_max_cache_length` is
the `FLAGS.override_max_cache_length` flag (default `-1`), passed
explicitly.  When `model_id_to_class.get(repo_id)` returns `None`,
reading `model_info.n_reps` raises `AttributeError`: that run is
`none`. -/
def construct_env_data_from_model_id (working_dir repo_id : String)
    (batch_size input_length output_length : Nat)
    (override_max_cache_length : Int) :
    Option JetEngineEnvironmentData :=
  let max_cache_length : Nat :=
    if 0 < override_max_cache_length then override_max_cache_length.toNat
    else input_length + output_length
  match model_id_to_class repo_id with
  | none => none
  | some model_info =>
      some
        { tokenizer_path :=
            _hf_dir working_dir repo_id ++ "/" ++ "tokenizer.model"
          checkpoint_path := _hf_dir working_dir repo_id
          checkpoint_format := "safetensors"
          batch_size := batch_size
          max_decode_length := output_length
          max_input_sequence_length := input_length
          cache_sequence_length := max_cache_length
          bf16_enable := true
          sharding_config_path := ""
          shard_on_batch := false
          n_reps := model_info.n_reps
          cache_shape :=
            (batch_size, model_info.num_kv_heads, max_cache_length,
              model_info.head_dim)
          num_layers := model_info.num_layers }

/-! ## fetch_models.py : _load_weights -/

/-- Torch dtypes occurring in checkpoints. -/
inductive DType
  | bfloat16
  | float16
  | float32
  | int8
  deriving DecidableEq, Repr

/-- A checkpoint tensor: its stored dtype (the payload is irrelevant to
the claims about `_load_weights`). -/
structure WTensor where
  dtype : DType
  deriving DecidableEq, Repr

/-- `tensor.to(torch.bfloat16)`. -/
def WTensor.toBfloat16 (t : WTensor) : WTensor :=
  { t with dtype := DType.bfloat16 }

/-- Python dict assignment `state_dict[key] = v`: overwrite the entry if
the key is present, append it otherwise. -/
def dictSet (sd : List (String × WTensor)) (key : String) (v : WTensor) :
    List (String × WTensor) :=
  if sd.any (fun p => p.1 = key) then
    sd.map (fun p => if p.1 = key then (key, v) else p)
  else sd ++ [(key, v)]

/-- `_load_weights(directory)`.  The directory is modelled as the list
of its `*.safetensors` files, each file as the list of its
`(key, tensor)` pairs in iteration order.  The body loads every tensor
with `.to(torch.bfloat16)` into `state_dict`, then raises
`AssertionError` when `state_dict` is empty. -/
def _load_weights (files : List (List (String × WTensor))) :
    Except String (List (String × WTensor)) :=
  let state_dict :=
    files.foldl
      (fun sd file =>
        file.foldl (fun sd kv => dictSet sd kv.1 kv.2.toBfloat16) sd)
      []
  if state_dict.isEmpty then
    Except.error "Tried to load weights, but could not find any."
  else Except.ok state_dict

/-! ## fetch_models.py : instantiate_model_from_repo_id -/

/-- The testing flags read by `instantiate_model_from_repo_id`. -/
structure FetchFlags where
  internal_use_random_weights : Bool
  internal_use_tiny_model : Bool
  deriving DecidableEq, Repr

/-- Observable build steps performed by
`instantiate_model_from_repo_id`, in execution order:
`hf_download` (checkpoint fetch), `construct_model device`
(`model_class.from_hf_model_id` with `env.device = device`, producing
placeholder parameters and no real weights), `make_random_weights`,
`load_weights` (`_load_weights` from disk), `convert_hf_weights`, and
`load_state_dict assign strict` (binding the weight table). -/
inductive BuildEvent
  | hf_download
  | construct_model (device : String)
  | make_random_weights
  | load_weights
  | convert_hf_weights
  | load_state_dict (assign : Bool) (strict : Bool)
  deriving DecidableEq, Repr

/-- `instantiate_model_from_repo_id`, as the trace of build events it
performs.  `weights_present` models `os.path.exists(model_dir) and
glob(model_dir/*.safetensors)` being non-empty.  When
`model_id_to_class.get(repo_id)` is `None` the
`assert model_info is not None` fails: that run is `none`. -/
def instantiate_model_from_repo_id (flags : FetchFlags)
    (weights_present : Bool) (repo_id : String) :
    Option (List BuildEvent) :=
  match model_id_to_class repo_id with
  | none => none
  | some _ =>
      some
        ((if !flags.internal_use_random_weights && !weights_present then
            [BuildEvent.hf_download]
          else []) ++
          [BuildEvent.construct_model "meta"] ++
          (if flags.internal_use_random_weights ||
              flags.internal_use_tiny_model then
            [BuildEvent.make_random_weights]
          else [BuildEvent.load_weights, BuildEvent.convert_hf_weights]) ++
          [BuildEvent.load_state_dict true false])

/-! ## gemma/model.py : rotary positional embedding -/

/-- `torch.arange(0, stop, step)` for positive `step`. -/
def arange0 (stop step : Nat) : List Nat :=
  (List.range ((stop + step - 1) / step)).map (fun j => step * j)

/-- `torch.polar(r, θ)`: the complex number `r * (cos θ + i sin θ)`. -/
noncomputable def polar (r θ : ℝ) : ℂ :=
  ⟨r * Real.cos θ, r * Real.sin θ⟩

/-- The local `freqs` of `precompute_freqs_cis`:
`freqs = 1.0 / theta ** (arange(0, dim, 2)[: dim // 2].float() / dim)`. -/
noncomputable def rotary_freqs (dim : Nat) (theta : ℝ) : List ℝ :=
  ((arange0 dim 2).take (dim / 2)).map
    (fun k : Nat => 1 / theta ^ ((k : ℝ) / (dim : ℝ)))

/-- `precompute_freqs_cis(dim, end, theta)`:
`t = arange(end)`, `freqs = outer(t, freqs)`,
`freqs_cis = polar(ones_like(freqs), freqs)`.
Row `t`, column `i` of the result is the table entry at position `t`
and frequency index `i`. -/
noncomputable def precompute_freqs_cis (dim e : Nat) (theta : ℝ) :
    List (List ℂ) :=
  (List.range e).map
    (fun t : Nat =>
      (rotary_freqs dim theta).map (fun fr => polar 1 ((t : ℝ) * fr)))

/-- `apply_rotary_emb(x, freqs_cis)`, viewed on one head vector of even
length `n + n` (the leading batch/seq/head axes, which the function only
transposes back and forth, are dropped).  `torch.chunk(·, 2, dim=-1)`
followed by `stack`/`view_as_complex` pairs component `j` with
component `n + j` as the complex number `x[j] + x[n+j]·i`; after the
multiplication by `freqs_cis[j]`, `view_as_real`/`chunk`/`cat` place
the real parts in the first half of the output and the imaginary parts
in the second half. -/
noncomputable def apply_rotary_emb (n : Nat) (x : Fin (n + n) → ℝ)
    (freqs_cis : Fin n → ℂ) : Fin (n + n) → ℝ :=
  Fin.addCases
    (fun j =>
      ((⟨x (Fin.castAdd n j), x (Fin.natAdd n j)⟩ : ℂ) * freqs_cis j).re)
    (fun j =>
      ((⟨x (Fin.castAdd n j), x (Fin.natAdd n j)⟩ : ℂ) * freqs_cis j).im)

/-! ## gemma/model.py : GemmaAttention construction -/

/-- The size metadata set by `GemmaAttention.__init__` (the projection
layers and the attention kernel carry no information relevant to the
claims and are omitted). -/
structure GemmaAttention where
  num_heads : Nat
  num_kv_heads : Nat
  num_queries_per_kv : Nat
  hidden_size : Nat
  head_dim : Nat
  q_size : Nat
  kv_size : Nat
  deriving DecidableEq, Repr

/-- `GemmaAttention.__init__`.  `num_heads % 0` raises
`ZeroDivisionError` in Python, and `assert num_heads % num_kv_heads
== 0` raises `AssertionError` when the counts do not divide: both
failing runs are `none`. -/
def GemmaAttention.init (hidden_size num_heads num_kv_heads head_dim :
    Nat) : Option GemmaAttention :=
  if num_kv_heads = 0 then none
  else if num_heads % num_kv_heads = 0 then
    some
      { num_heads := num_heads
        num_kv_heads := num_kv_heads
        num_queries_per_kv := num_heads / num_kv_heads
        hidden_size := hidden_size
        head_dim := head_dim
        q_size := num_heads * head_dim
        kv_size := num_kv_heads * head_dim }
  else none

/-! ## gemma/model.py : GemmaDecoderLayer.forward -/

/-- A decoder layer, abstracted over the forward functions of its four
submodules acting on hidden states of type `α` (the remaining arguments
of `self_attn` — rotary table slice, mask, cache, start/end cursors,
ragged tables — are fixed for the call being analysed). -/
structure GemmaDecoderLayer (α : Type*) where
  self_attn : α → α
  mlp : α → α
  input_layernorm : α → α
  post_attention_layernorm : α → α

/-- `GemmaDecoderLayer.forward`, following the statement sequence of
the source (residual save, norm, attention, residual add, residual
save, norm, mlp, residual add). -/
def GemmaDecoderLayer.forward {α : Type*} [Add α]
    (l : GemmaDecoderLayer α) (hidden_states : α) : α :=
  let residual := hidden_states
  let hidden_states := l.input_layernorm hidden_states
  let hidden_states := l.self_attn hidden_states
  let hidden_states := residual + hidden_states
  let residual := hidden_states
  let hidden_states := l.post_attention_layernorm hidden_states
  let hidden_states := l.mlp hidden_states
  let hidden_states := residual + hidden_states
  hidden_states

/-! ## gemma/model.py : GemmaModel -/

/-- The `GemmaConfig` fields used by `GemmaModel.__init__` for the
rotary table and the layer stack. -/
structure GemmaConfig where
  head_dim : Nat
  max_position_embeddings : Nat
  num_hidden_layers : Nat
  rope_theta : ℝ

/-- The environment fields read by `GemmaModel.forward`. -/
structure GemmaEnv where
  cache_len : Nat

/-- `GemmaModel` state relevant to the claims: the configuration, the
environment, and the `freqs_cis` buffer registered at construction. -/
structure GemmaModel where
  config : GemmaConfig
  env : GemmaEnv
  freqs_cis : List (List ℂ)

/-- `GemmaModel.__init__`: registers
`freqs_cis = precompute_freqs_cis(head_dim,
max_position_embeddings * 2, rope_theta)` as a buffer. -/
noncomputable def GemmaModel.init (config : GemmaConfig)
    (env : GemmaEnv) : GemmaModel :=
  { config := config
    env := env
    freqs_cis :=
      precompute_freqs_cis config.head_dim
        (config.max_position_embeddings * 2) config.rope_theta }

/-- The position-bookkeeping arguments passed by `GemmaModel.forward`
to one decoder layer (`start` and `end`; the hidden states, rotary
slice, cache, mask and ragged tables are also passed but are not
position bookkeeping). -/
structure LayerCall where
  layer_id : Nat
  start : Option (List Nat)
  end_ : Option (List Nat)
  deriving DecidableEq, Repr

/-- `GemmaModel.forward`, as its observable position bookkeeping: it
computes `end = None if start is None else (start + input_pos) %
self.env.cache_len` (elementwise over the per-slot vectors) and invokes
every decoder layer with this `start`/`end` pair; the model object
itself is not mutated (the `freqs_cis` buffer is only indexed and
reshaped), so the resulting model state is returned unchanged. -/
def GemmaModel.forward (m : GemmaModel) (tokens : List Nat)
    (input_pos : List Nat) (start : Option (List Nat)) :
    List LayerCall × GemmaModel :=
  let end_ : Option (List Nat) :=
    match start with
    | none => none
    | some s =>
        some ((List.zipWith (fun a b => a + b) s input_pos).map
          (fun v => v % m.env.cache_len))
  (((List.range m.config.num_hidden_layers).map
      (fun i => { layer_id := i, start := start, end_ := end_ })), m)

/-! ## Helper lemmas -/

/-- `torch.polar` with unit magnitude yields a unit-modulus complex
number. -/
theorem abs_polar_one (θ : ℝ) : Complex.abs (polar 1 θ) = 1 := by
  simp only [polar, Complex.abs_apply, Complex.normSq_mk]
  have h : 1 * Real.cos θ * (1 * Real.cos θ) + 1 * Real.sin θ * (1 * Real.sin θ) = 1 := by
    have hs := Real.sin_sq_add_cos_sq θ
    nlinarith [hs]
  rw [h, Real.sqrt_one]

/-- The `freqs` vector has `dim / 2` entries. -/
theorem rotary_freqs_length (dim : Nat) (theta : ℝ) :
    (rotary_freqs dim theta).length = dim / 2 := by
  simp only [rotary_freqs, arange0, List.length_map, List.length_take,
    List.length_range]
  omega

/-- Entry `i` of the `freqs` vector is `1 / theta ^ (2i / dim)`. -/
theorem rotary_freqs_getElem (dim : Nat) (theta : ℝ) (i : Nat)
    (hi : i < dim / 2) :
    (rotary_freqs dim theta)[i]? =
      some (1 / theta ^ (((2 * i : Nat) : ℝ) / (dim : ℝ))) := by
  have hcnt : i < (dim + 2 - 1) / 2 := by omega
  simp only [rotary_freqs, arange0, List.getElem?_map,
    List.getElem?_take_of_lt hi, List.getElem?_range hcnt]
  simp

/-! ## Claim theorems -/

/-- C2: `precompute_freqs_cis dim e theta` is an `e × dim/2` table whose
entry at position `t` and index `i` is the unit-modulus complex number
`polar 1 (t / theta ^ (2i / dim))`, i.e. the cos/sin pair of the angle
`t / theta ^ (2i / dim)`. -/
theorem precompute_freqs_cis_spec (dim e : Nat) (theta : ℝ) (t i : Nat)
    (ht : t < e) (hi : i < dim / 2) :
    (precompute_freqs_cis dim e theta).length = e ∧
    (∀ row ∈ precompute_freqs_cis dim e theta, row.length = dim / 2) ∧
    ∃ z : ℂ,
      ((precompute_freqs_cis dim e theta)[t]?.bind fun row => row[i]?) =
        some z ∧
      z = polar 1 ((t : ℝ) / theta ^ ((2 * (i : ℝ)) / (dim : ℝ))) ∧
      Complex.abs z = 1 := by
  refine ⟨by simp [precompute_freqs_cis], ?_, ?_⟩
  · intro row hrow
    simp only [precompute_freqs_cis, List.mem_map, List.mem_range] at hrow
    obtain ⟨a, -, rfl⟩ := hrow
    simp [rotary_freqs_length]
  · refine ⟨polar 1 ((t : ℝ) * (1 / theta ^ (((2 * i : Nat) : ℝ) / (dim : ℝ)))),
      ?_, ?_, abs_polar_one _⟩
    · simp only [precompute_freqs_cis, List.getElem?_map,
        List.getElem?_range ht]
      simp [List.getElem?_map, rotary_freqs_getElem dim theta i hi]
    · congr 1
      push_cast
      rw [mul_one_div]

/-- Witness for C2 at `dim = 2`, `e = 1`, `theta = 2`, `t = 0`,
`i = 0`. -/
theorem precompute_freqs_cis_spec_witness :
    (precompute_freqs_cis 2 1 2).length = 1 ∧
    (∀ row ∈ precompute_freqs_cis 2 1 2, row.length = 2 / 2) ∧
    ∃ z : ℂ,
      ((precompute_freqs_cis 2 1 2)[0]?.bind fun row => row[0]?) = some z ∧
      z = polar 1 (((0 : Nat) : ℝ) /
        (2 : ℝ) ^ ((2 * ((0 : Nat) : ℝ)) / ((2 : Nat) : ℝ))) ∧
      Complex.abs z = 1 :=
  precompute_freqs_cis_spec 2 1 2 0 0 (by decide) (by decide)

/-- C3: `apply_rotary_emb` with a unit-modulus table slice preserves the
Euclidean norm of every rotated pair `(x[j], x[n+j])` and hence the norm
of the whole vector. -/
theorem apply_rotary_emb_preserves_norm (n : Nat) (x : Fin (n + n) → ℝ)
    (freqs_cis : Fin n → ℂ)
    (hf : ∀ j, Complex.abs (freqs_cis j) = 1) :
    (∀ j : Fin n,
        apply_rotary_emb n x freqs_cis (Fin.castAdd n j) ^ 2 +
          apply_rotary_emb n x freqs_cis (Fin.natAdd n j) ^ 2 =
        x (Fin.castAdd n j) ^ 2 + x (Fin.natAdd n j) ^ 2) ∧
    (∑ k, apply_rotary_emb n x freqs_cis k ^ 2 = ∑ k, x k ^ 2) := by
  have hpair : ∀ j : Fin n,
      apply_rotary_emb n x freqs_cis (Fin.castAdd n j) ^ 2 +
        apply_rotary_emb n x freqs_cis (Fin.natAdd n j) ^ 2 =
      x (Fin.castAdd n j) ^ 2 + x (Fin.natAdd n j) ^ 2 := by
    intro j
    have h1 : apply_rotary_emb n x freqs_cis (Fin.castAdd n j) =
        ((⟨x (Fin.castAdd n j), x (Fin.natAdd n j)⟩ : ℂ) * freqs_cis j).re := by
      unfold apply_rotary_emb
      rw [Fin.addCases_left]
    have h2 : apply_rotary_emb n x freqs_cis (Fin.natAdd n j) =
        ((⟨x (Fin.castAdd n j), x (Fin.natAdd n j)⟩ : ℂ) * freqs_cis j).im := by
      unfold apply_rotary_emb
      rw [Fin.addCases_right]
    have hone : Complex.normSq (freqs_cis j) = 1 := by
      rw [← Complex.sq_abs, hf j]
      norm_num
    have hnorm :
        Complex.normSq
            ((⟨x (Fin.castAdd n j), x (Fin.natAdd n j)⟩ : ℂ) * freqs_cis j) =
          Complex.normSq (⟨x (Fin.castAdd n j), x (Fin.natAdd n j)⟩ : ℂ) := by
      rw [Complex.normSq_mul, hone, mul_one]
    have hres := hnorm
    rw [Complex.normSq_apply, Complex.normSq_mk] at hres
    rw [h1, h2]
    nlinarith [hres]
  refine ⟨hpair, ?_⟩
  rw [Fin.sum_univ_add (f := fun k => apply_rotary_emb n x freqs_cis k ^ 2),
    Fin.sum_univ_add (f := fun k => x k ^ 2),
    ← Finset.sum_add_distrib, ← Finset.sum_add_distrib]
  exact Finset.sum_congr rfl (fun j _ => hpair j)

/-- Witness for C3 at `n = 1`, `x = (1, 1)`, table slice `(1)`. -/
theorem apply_rotary_emb_preserves_norm_witness :
    (∀ j : Fin 1,
        apply_rotary_emb 1 (fun _ => (1 : ℝ)) (fun _ => (1 : ℂ))
            (Fin.castAdd 1 j) ^ 2 +
          apply_rotary_emb 1 (fun _ => (1 : ℝ)) (fun _ => (1 : ℂ))
            (Fin.natAdd 1 j) ^ 2 =
        (fun _ : Fin (1 + 1) => (1 : ℝ)) (Fin.castAdd 1 j) ^ 2 +
          (fun _ : Fin (1 + 1) => (1 : ℝ)) (Fin.natAdd 1 j) ^ 2) ∧
    (∑ k, apply_rotary_emb 1 (fun _ => (1 : ℝ)) (fun _ => (1 : ℂ)) k ^ 2 =
      ∑ k : Fin (1 + 1), (fun _ : Fin (1 + 1) => (1 : ℝ)) k ^ 2) :=
  apply_rotary_emb_preserves_norm 1 (fun _ => (1 : ℝ)) (fun _ => (1 : ℂ))
    (fun j => by simp)

/-- C1: in `GemmaModel.forward`, every decoder layer receives the end
cursor `(start + input_pos) % env.cache_len` (elementwise) when `start`
is not `None`, and `None` when `start` is `None`. -/
theorem gemma_forward_end_cursor (m : GemmaModel)
    (tokens input_pos : List Nat) (start : Option (List Nat))
    (c : LayerCall) (hc : c ∈ (m.forward tokens input_pos start).1) :
    (start = none → c.end_ = none) ∧
    (∀ s, start = some s →
      c.end_ = some ((List.zipWith (fun a b => a + b) s input_pos).map
        (fun v => v % m.env.cache_len))) := by
  simp only [GemmaModel.forward, List.mem_map, List.mem_range] at hc
  obtain ⟨i, -, rfl⟩ := hc
  constructor
  · rintro rfl
    rfl
  · rintro s rfl
    rfl

/-- A concrete model state for the C1 witness (one decoder layer,
ring-buffer length 4). -/
noncomputable def sampleGemmaModel : GemmaModel :=
  { config :=
      { head_dim := 2, max_position_embeddings := 4, num_hidden_layers := 1,
        rope_theta := 10000 }
    env := { cache_len := 4 }
    freqs_cis := precompute_freqs_cis 2 8 10000 }

/-- Witness for C1: one layer call of `sampleGemmaModel` with
`start = [1]`, `input_pos = [2]` receives `end = [(1 + 2) % 4] = [3]`. -/
theorem gemma_forward_end_cursor_witness :
    ((some [1] : Option (List Nat)) = none →
      ({ layer_id := 0, start := some [1], end_ := some [3] } :
        LayerCall).end_ = none) ∧
    (∀ s, (some [1] : Option (List Nat)) = some s →
      ({ layer_id := 0, start := some [1], end_ := some [3] } :
        LayerCall).end_ =
        some ((List.zipWith (fun a b => a + b) s [2]).map
          (fun v => v % sampleGemmaModel.env.cache_len))) :=
  gemma_forward_end_cursor sampleGemmaModel [5] [2] (some [1])
    { layer_id := 0, start := some [1], end_ := some [3] }
    (List.mem_singleton.mpr rfl)

/-- C4: `GemmaAttention` construction with a positive `num_kv_heads`
fails exactly when `num_kv_heads` does not divide `num_heads`, and on
success sets `num_queries_per_kv = num_heads / num_kv_heads`. -/
theorem gemma_attention_init_gqa
    (hidden_size num_heads num_kv_heads head_dim : Nat)
    (hpos : 0 < num_kv_heads) :
    (¬ num_kv_heads ∣ num_heads →
      GemmaAttention.init hidden_size num_heads num_kv_heads head_dim =
        none) ∧
    (num_kv_heads ∣ num_heads →
      GemmaAttention.init hidden_size num_heads num_kv_heads head_dim =
        some
          { num_heads := num_heads
            num_kv_heads := num_kv_heads
            num_queries_per_kv := num_heads / num_kv_heads
            hidden_size := hidden_size
            head_dim := head_dim
            q_size := num_heads * head_dim
            kv_size := num_kv_heads * head_dim }) := by
  unfold GemmaAttention.init
  rw [if_neg (Nat.pos_iff_ne_zero.mp hpos)]
  constructor
  · intro hnd
    rw [if_neg (fun h => hnd (Nat.dvd_of_mod_eq_zero h))]
  · intro hd
    rw [if_pos (Nat.mod_eq_zero_of_dvd hd)]

/-- Witness for C4 at `num_heads = 8`, `num_kv_heads = 2`. -/
theorem gemma_attention_init_gqa_witness :
    (¬ (2 : Nat) ∣ 8 → GemmaAttention.init 4 8 2 16 = none) ∧
    ((2 : Nat) ∣ 8 →
      GemmaAttention.init 4 8 2 16 =
        some
          { num_heads := 8, num_kv_heads := 2, num_queries_per_kv := 8 / 2,
            hidden_size := 4, head_dim := 16, q_size := 8 * 16,
            kv_size := 2 * 16 }) :=
  gemma_attention_init_gqa 4 8 2 16 (by decide)

/-- C5: for a repo id in the model table,
`construct_env_data_from_model_id` sets the cache sequence length to
`input_length + output_length` unless the override flag is strictly
positive (then the override), and sets
`cache_shape = (batch_size, num_kv_heads, cache_length, head_dim)` from
that model's info. -/
theorem construct_env_data_cache_sizing (working_dir repo_id : String)
    (mi : ModelInfo) (batch_size input_length output_length : Nat)
    (override_max_cache_length : Int)
    (h : model_id_to_class repo_id = some mi) :
    ∃ e, construct_env_data_from_model_id working_dir repo_id batch_size
        input_length output_length override_max_cache_length = some e ∧
      e.cache_sequence_length =
        (if 0 < override_max_cache_length then
          override_max_cache_length.toNat
        else input_length + output_length) ∧
      e.cache_shape =
        (batch_size, mi.num_kv_heads,
          (if 0 < override_max_cache_length then
            override_max_cache_length.toNat
          else input_length + output_length),
          mi.head_dim) := by
  unfold construct_env_data_from_model_id
  rw [h]
  exact ⟨_, rfl, rfl, rfl⟩

/-- Witness for C5 at `google/gemma-2b` (1 kv head, head_dim 256),
batch 2, input 3, output 5, override disabled (`-1`). -/
theorem construct_env_data_cache_sizing_witness :
    ∃ e, construct_env_data_from_model_id "checkpoints" "google/gemma-2b"
        2 3 5 (-1) = some e ∧
      e.cache_sequence_length =
        (if (0 : Int) < -1 then Int.toNat (-1) else 3 + 5) ∧
      e.cache_shape =
        (2, (_gemma_2b).num_kv_heads,
          (if (0 : Int) < -1 then Int.toNat (-1) else 3 + 5),
          (_gemma_2b).head_dim) :=
  construct_env_data_cache_sizing "checkpoints" "google/gemma-2b"
    _gemma_2b 2 3 5 (-1) rfl

/-- C6: `GemmaDecoderLayer.forward` computes
`h1 = x + attn(input_layernorm x)` then
`h1 + mlp(post_attention_layernorm h1)`: norm, attention, residual add,
feed-forward, residual add, in that order. -/
theorem gemma_decoder_layer_forward_order {α : Type*} [Add α]
    (l : GemmaDecoderLayer α) (x : α) :
    l.forward x =
      (x + l.self_attn (l.input_layernorm x)) +
        l.mlp (l.post_attention_layernorm
          (x + l.self_attn (l.input_layernorm x))) := rfl

/-- C7: the `freqs_cis` buffer equals
`precompute_freqs_cis head_dim (max_position_embeddings * 2) rope_theta`
at construction and is unchanged by any sequence of `forward` calls. -/
theorem gemma_freqs_cis_constant (config : GemmaConfig) (env : GemmaEnv)
    (calls : List (List Nat × List Nat × Option (List Nat))) :
    (calls.foldl
        (fun m a => (GemmaModel.forward m a.1 a.2.1 a.2.2).2)
        (GemmaModel.init config env)).freqs_cis =
      precompute_freqs_cis config.head_dim
        (config.max_position_embeddings * 2) config.rope_theta := by
  have key : ∀ (l : List (List Nat × List Nat × Option (List Nat)))
      (m : GemmaModel),
      l.foldl (fun m a => (GemmaModel.forward m a.1 a.2.1 a.2.2).2) m = m := by
    intro l
    induction l with
    | nil => intro m; rfl
    | cons a l ih => intro m; exact ih m
  rw [key]
  rfl

/-- C9: `construct_env_data_from_model_id` completes (returns
environment data) exactly for the repo ids present in the
`model_id_to_class` table; for unknown ids the `None` lookup makes it
raise. -/
theorem construct_env_data_known_model (working_dir repo_id : String)
    (batch_size input_length output_length : Nat) (ov : Int) :
    (construct_env_data_from_model_id working_dir repo_id batch_size
        input_length output_length ov).isSome ↔
      (model_id_to_class repo_id).isSome := by
  unfold construct_env_data_from_model_id
  cases h : model_id_to_class repo_id <;> simp [h]

/-- C8: for a repo id in the model table,
`instantiate_model_from_repo_id` performs exactly one structural model
construction, on the `"meta"` device, and exactly one weight binding
(`load_state_dict` with `assign=True`), and the construction strictly
precedes the weight binding. -/
theorem instantiate_two_phase (flags : FetchFlags)
    (weights_present : Bool) (repo_id : String) (mi : ModelInfo)
    (h : model_id_to_class repo_id = some mi) :
    ∃ tr,
      instantiate_model_from_repo_id flags weights_present repo_id =
        some tr ∧
      tr.count (BuildEvent.construct_model "meta") = 1 ∧
      (∀ d, BuildEvent.construct_model d ∈ tr → d = "meta") ∧
      tr.count (BuildEvent.load_state_dict true false) = 1 ∧
      (∀ a s, BuildEvent.load_state_dict a s ∈ tr → a = true ∧ s = false) ∧
      tr.indexOf (BuildEvent.construct_model "meta") <
        tr.indexOf (BuildEvent.load_state_dict true false) := by
  unfold instantiate_model_from_repo_id
  rw [h]
  obtain ⟨r, t⟩ := flags
  cases r <;> cases t <;> cases weights_present <;>
    refine ⟨_, rfl, ?_, ?_, ?_, ?_, ?_⟩ <;>
    first
      | decide
      | (intro a s hmem; simpa using hmem)
      | (intro d hd; simpa using hd)

/-- Witness for C8 at `google/gemma-2b` with both testing flags off and
weights already present on disk. -/
theorem instantiate_two_phase_witness :
    ∃ tr,
      instantiate_model_from_repo_id ⟨false, false⟩ true "google/gemma-2b" =
        some tr ∧
      tr.count (BuildEvent.construct_model "meta") = 1 ∧
      (∀ d, BuildEvent.construct_model d ∈ tr → d = "meta") ∧
      tr.count (BuildEvent.load_state_dict true false) = 1 ∧
      (∀ a s, BuildEvent.load_state_dict a s ∈ tr → a = true ∧ s = false) ∧
      tr.indexOf (BuildEvent.construct_model "meta") <
        tr.indexOf (BuildEvent.load_state_dict true false) :=
  instantiate_two_phase ⟨false, false⟩ true "google/gemma-2b" _gemma_2b rfl

/-- `dictSet` never produces an empty dict. -/
theorem dictSet_ne_nil (sd : List (String × WTensor)) (k : String)
    (v : WTensor) : dictSet sd k v ≠ [] := by
  unfold dictSet
  split
  · next hany =>
      intro hnil
      have hsd : sd = [] := by simpa using congrArg List.length hnil
      subst hsd
      simp at hany
  · intro hnil
    simp at hnil

/-- Folding one file into a dict yields the empty dict only from an
empty dict and an empty file. -/
theorem foldl_dictSet_file_eq_nil (file : List (String × WTensor)) :
    ∀ sd : List (String × WTensor),
      file.foldl (fun sd kv => dictSet sd kv.1 kv.2.toBfloat16) sd = [] ↔
        (sd = [] ∧ file = []) := by
  induction file with
  | nil => intro sd; simp
  | cons a file ih =>
      intro sd
      rw [List.foldl_cons, ih]
      simp [dictSet_ne_nil]

/-- Folding all files into a dict yields the empty dict exactly when the
initial dict is empty and every file is empty. -/
theorem foldl_dictSet_files_eq_nil
    (files : List (List (String × WTensor))) :
    ∀ sd : List (String × WTensor),
      files.foldl
          (fun sd file =>
            file.foldl (fun sd kv => dictSet sd kv.1 kv.2.toBfloat16) sd)
          sd = [] ↔
        (sd = [] ∧ ∀ f ∈ files, f = []) := by
  induction files with
  | nil => intro sd; simp
  | cons f files ih =>
      intro sd
      rw [List.foldl_cons, ih, foldl_dictSet_file_eq_nil]
      simp only [List.forall_mem_cons]
      tauto

/-- Every entry of `dictSet sd k v` comes from `sd` or is `(k, v)`. -/
theorem dictSet_mem (sd : List (String × WTensor)) (k : String)
    (v : WTensor) (p : String × WTensor) (hp : p ∈ dictSet sd k v) :
    p ∈ sd ∨ p = (k, v) := by
  unfold dictSet at hp
  split at hp
  · obtain ⟨q, hq, hqe⟩ := List.mem_map.1 hp
    by_cases hqk : q.1 = k
    · rw [if_pos hqk] at hqe
      right
      exact hqe.symm
    · rw [if_neg hqk] at hqe
      left
      exact hqe ▸ hq
  · rcases List.mem_append.1 hp with hmem | hmem
    · left
      exact hmem
    · right
      simpa using hmem

/-- Every entry accumulated from one file is from the initial dict or
stored as bfloat16. -/
theorem foldl_dictSet_file_mem (file : List (String × WTensor)) :
    ∀ (sd : List (String × WTensor)) (p : String × WTensor),
      p ∈ file.foldl (fun sd kv => dictSet sd kv.1 kv.2.toBfloat16) sd →
        p ∈ sd ∨ p.2.dtype = DType.bfloat16 := by
  induction file with
  | nil => intro sd p hp; left; exact hp
  | cons a file ih =>
      intro sd p hp
      rw [List.foldl_cons] at hp
      rcases ih _ p hp with hmem | hbf
      · rcases dictSet_mem _ _ _ _ hmem with h2 | h2
        · left; exact h2
        · right; rw [h2]; rfl
      · right; exact hbf

/-- Every entry accumulated from all files is from the initial dict or
stored as bfloat16. -/
theorem foldl_dictSet_files_mem (files : List (List (String × WTensor))) :
    ∀ (sd : List (String × WTensor)) (p : String × WTensor),
      p ∈ files.foldl
          (fun sd file =>
            file.foldl (fun sd kv => dictSet sd kv.1 kv.2.toBfloat16) sd)
          sd →
        p ∈ sd ∨ p.2.dtype = DType.bfloat16 := by
  induction files with
  | nil => intro sd p hp; left; exact hp
  | cons f files ih =>
      intro sd p hp
      rw [List.foldl_cons] at hp
      rcases ih _ p hp with hmem | hbf
      · exact foldl_dictSet_file_mem f sd p hmem
      · right; exact hbf

/-- C10: `_load_weights` raises `AssertionError` if and only if no
tensor occurs in any safetensors file of the directory; otherwise it
returns a non-empty state dict whose every tensor was converted to
bfloat16. -/
theorem load_weights_spec (files : List (List (String × WTensor))) :
    ((∃ msg, _load_weights files = Except.error msg) ↔
      ∀ f ∈ files, f = []) ∧
    (∀ sd, _load_weights files = Except.ok sd →
      sd ≠ [] ∧ ∀ p ∈ sd, p.2.dtype = DType.bfloat16) := by
  by_cases hemp :
      (files.foldl
          (fun sd file =>
            file.foldl (fun sd kv => dictSet sd kv.1 kv.2.toBfloat16) sd)
          []).isEmpty
  · have hload : _load_weights files =
        Except.error "Tried to load weights, but could not find any." := by
      unfold _load_weights
      rw [if_pos hemp]
    have hnil := (List.isEmpty_iff).mp hemp
    have hall := ((foldl_dictSet_files_eq_nil files []).mp hnil).2
    constructor
    · exact ⟨fun _ => hall, fun _ => ⟨_, hload⟩⟩
    · intro sd hsd
      rw [hload] at hsd
      exact absurd hsd (by simp)
  · have hload : _load_weights files =
        Except.ok
          (files.foldl
            (fun sd file =>
              file.foldl (fun sd kv => dictSet sd kv.1 kv.2.toBfloat16) sd)
            []) := by
      unfold _load_weights
      rw [if_neg hemp]
    constructor
    · constructor
      · rintro ⟨msg, hmsg⟩
        rw [hload] at hmsg
        exact absurd hmsg (by simp)
      · intro hall
        exact absurd
          ((foldl_dictSet_files_eq_nil files []).mpr ⟨rfl, hall⟩)
          (fun hnil => hemp (List.isEmpty_iff.mpr hnil))
    · intro sd hsd
      rw [hload] at hsd
      obtain rfl : _ = sd := Except.ok.inj hsd
      refine ⟨fun hnil => hemp (List.isEmpty_iff.mpr hnil), ?_⟩
      intro p hp
      rcases foldl_dictSet_files_mem files [] p hp with hmem | hbf
      · exact absurd hmem (List.not_mem_nil p)
      · exact hbf

/-- Witness for C10 on a directory with one file holding one float32
tensor. -/
theorem load_weights_spec_witness :
    ((∃ msg,
        _load_weights [[("w", ⟨DType.float32⟩)]] = Except.error msg) ↔
      ∀ f ∈ [[("w", (⟨DType.float32⟩ : WTensor))]], f = []) ∧
    (∀ sd, _load_weights [[("w", ⟨DType.float32⟩)]] = Except.ok sd →
      sd ≠ [] ∧ ∀ p ∈ sd, p.2.dtype = DType.bfloat16) :=
  load_weights_spec [[("w", ⟨DType.float32⟩)]]

end JetstreamPt
